import Mathlib

/-!
Shallow embedding of the unit registry, monitoring loop, alert dispatcher
and query facade of `app.py` (temperature/humidity web application).

External collaborators (the `board` module, DHT22/fan constructors, the
SQLite store, the SMTP transport, Python's `float`) are modelled as
explicit environment parameters: functions supplied to the embedded
operations, so theorems quantify over every behaviour of the environment.
-/

namespace TempHum

/-- Hardware environment: `board` attribute lookup (`getattr(board, pin_str)`),
DHT22 sensor construction and `OutputDevice` fan construction, each of which
may fail. Handles are modelled as opaque numeric identifiers. -/
structure HwEnv where
  boardPin : String → Option Nat
  dhtInit : Nat → Except String Nat
  fanInit : Int → Except String Nat

/-- One row of the durable `units` table:
`(id, name, dht_pin, fan_pin, active)`. -/
structure UnitRow where
  id : Nat
  name : String
  dhtPin : String
  fanPin : Int
  active : Bool
deriving DecidableEq, Repr

/-- One entry of the in-memory `units` dict:
`{"name": name, "sensor": sensor, "fan": fan}`. -/
structure RuntimeUnit where
  name : String
  sensor : Nat
  fan : Nat
deriving DecidableEq, Repr

/-- The in-memory registry: the global `units` dict, unit id to runtime unit. -/
abbrev Registry := List (Nat × RuntimeUnit)

/-- Key set of a registry value. -/
def registryKeys (m : Registry) : List Nat := m.map Prod.fst

/-- Python dict assignment `m[k] = v`: the binding for `k` is replaced
(any previous binding removed), the key set gains `k`. -/
def dictInsert (m : Registry) (k : Nat) (v : RuntimeUnit) : Registry :=
  m.filter (fun p => p.1 != k) ++ [(k, v)]

/-- `get_board_pin(pin_str)`: `getattr(board, pin_str)`, `None` on
`AttributeError`. -/
def get_board_pin (env : HwEnv) (pinStr : String) : Option Nat :=
  env.boardPin pinStr

/-- The body of the `for` loop of `load_units`: resolve the board pin,
construct the DHT22 sensor, construct the fan; on any failure skip the row
(`continue`), otherwise insert into the dict being built. -/
def processRow (env : HwEnv) (acc : Registry) (row : UnitRow) : Registry :=
  match get_board_pin env row.dhtPin with
  | none => acc
  | some dhtPin =>
    match env.dhtInit dhtPin with
    | .error _ => acc
    | .ok sensor =>
      match env.fanInit row.fanPin with
      | .error _ => acc
      | .ok fan => dictInsert acc row.id ⟨row.name, sensor, fan⟩

/-- Whether a row survives all three steps of `load_units`
(pin resolution, sensor init, fan init). -/
def unitLoadOk (env : HwEnv) (row : UnitRow) : Bool :=
  match get_board_pin env row.dhtPin with
  | none => false
  | some dhtPin =>
    match env.dhtInit dhtPin with
    | .error _ => false
    | .ok _ =>
      match env.fanInit row.fanPin with
      | .error _ => false
      | .ok _ => true

/-- `new_units` as built by `load_units` from the `active=1` rows. -/
def buildNewUnits (env : HwEnv) (rows : List UnitRow) : Registry :=
  rows.foldl (processRow env) []

/-- `load_units()`: query the `active=1` rows, build `new_units` from
scratch, then replace the global `units` dict wholesale. The prior registry
value is taken as an argument and discarded, as in the source. -/
def load_units (env : HwEnv) (db : List UnitRow) (_old : Registry) : Registry :=
  buildNewUnits env (db.filter (fun r => r.active))

/-- State of an in-progress `load_units` call: the shared global `units`
map, and the local `new_units` map under construction. -/
structure LoadState where
  shared : Registry
  building : Registry
deriving DecidableEq, Repr

/-- Atomic steps of `load_units`: one loop iteration per `active=1` row,
then the single publish `units = new_units` under `units_lock`. -/
inductive LoadStep where
  | procRow : UnitRow → LoadStep
  | publish : LoadStep
deriving DecidableEq, Repr

/-- Effect of one atomic step on the load state. Loop iterations touch only
the local `new_units`; `publish` is the lone write to the shared map. -/
def loadStepRun (env : HwEnv) (s : LoadState) : LoadStep → LoadState
  | .procRow row => ⟨s.shared, processRow env s.building row⟩
  | .publish => ⟨s.building, s.building⟩

/-- The step sequence `load_units` performs for a given durable table. -/
def loadUnitsSteps (db : List UnitRow) : List LoadStep :=
  (db.filter (fun r => r.active)).map LoadStep.procRow ++ [LoadStep.publish]

/-- All states a run passes through (initial state included). -/
def execTrace (env : HwEnv) (s : LoadState) : List LoadStep → List LoadState
  | [] => [s]
  | step :: rest => s :: execTrace env (loadStepRun env s step) rest

/-- The state trace of `load_units` starting from shared map `old`. -/
def loadUnitsTrace (env : HwEnv) (db : List UnitRow) (old : Registry) : List LoadState :=
  execTrace env ⟨old, []⟩ (loadUnitsSteps db)

/-- Python's banker's rounding of a rational to the nearest integer
(ties to even), the semantics of the built-in `round`. -/
def roundHalfEven (x : ℚ) : ℤ :=
  let f : ℤ := Int.fdiv x.num (x.den : ℤ)
  let frac : ℚ := x - (f : ℚ)
  if frac < 1/2 then f
  else if 1/2 < frac then f + 1
  else if f % 2 = 0 then f else f + 1

/-- `round(x, 2)`: rounding to two decimal places. -/
def round2 (x : ℚ) : ℚ := ((roundHalfEven (x * 100) : ℤ) : ℚ) / 100

/-- Behaviour of one unit's DHT22 sensor at one read: each of the
`temperature` and `humidity` property accesses either raises or yields an
optional value. -/
structure SensorBehavior where
  tempRead : Except String (Option ℚ)
  humRead : Except String (Option ℚ)
deriving Repr

/-- `read_sensor(unit_id)`: read `sensor.temperature` then
`sensor.humidity` inside a `try`; any raise yields `(None, None)`;
otherwise each present value is rounded to 2 decimal places. -/
def read_sensor (b : SensorBehavior) : Option ℚ × Option ℚ :=
  match b.tempRead with
  | .error _ => (none, none)
  | .ok temperature =>
    match b.humRead with
    | .error _ => (none, none)
    | .ok humidity => (temperature.map round2, humidity.map round2)

/-- One row appended to `temperature_log` by `log_data`. -/
structure LogRow where
  unitId : Nat
  temperature : ℚ
  humidity : Option ℚ
  fanOn : Bool
deriving DecidableEq, Repr

/-- The body of the per-unit `for` loop of `monitor_loop`: read the sensor
and fan state; if a temperature is present, persist one log row and, when
it is out of `[min_temp, max_temp]`, invoke `send_email_alert` once.
Returns the log rows persisted and the alert dispatches made. -/
def monitor_unit_step (b : SensorBehavior) (fanOn : Bool) (minTemp maxTemp : ℚ)
    (unitId : Nat) : List LogRow × List (Nat × ℚ) :=
  match (read_sensor b).1 with
  | none => ([], [])
  | some t =>
    ([⟨unitId, t, (read_sensor b).2, fanOn⟩],
      if t < minTemp ∨ maxTemp < t then [(unitId, t)] else [])

/-- One full sampling pass of `monitor_loop` over the unit-id snapshot,
concatenating each unit's persisted rows and dispatched alerts in order. -/
def monitor_pass (sensors : Nat → SensorBehavior) (fans : Nat → Bool)
    (minTemp maxTemp : ℚ) : List Nat → List LogRow × List (Nat × ℚ)
  | [] => ([], [])
  | uid :: rest =>
    let r := monitor_unit_step (sensors uid) (fans uid) minTemp maxTemp uid
    let rs := monitor_pass sensors fans minTemp maxTemp rest
    (r.1 ++ rs.1, r.2 ++ rs.2)

/-- Python dict comprehension `{k: v for k, v in rows}` followed by
`.get(key)`: the last binding of a key wins. -/
def dictLookup (rows : List (String × String)) (k : String) : Option String :=
  rows.foldl (fun acc kv => if kv.1 == k then some kv.2 else acc) none

/-- `get_settings()`: read the `settings` rows (the read may fail), take
`temp_spec_min`/`temp_spec_max` with defaults 10 and 40, convert with
`float` (whose failure, like a store failure, falls back to the defaults
for both limits via the enclosing `except`). -/
def get_settings (pyFloat : String → Option ℚ)
    (fetch : Except String (List (String × String))) : ℚ × ℚ :=
  match fetch with
  | .error _ => (10, 40)
  | .ok rows =>
    let minv : Option ℚ :=
      match dictLookup rows "temp_spec_min" with
      | none => some 10
      | some s => pyFloat s
    let maxv : Option ℚ :=
      match dictLookup rows "temp_spec_max" with
      | none => some 40
      | some s => pyFloat s
    match minv, maxv with
    | some a, some b => (a, b)
    | _, _ => (10, 40)

/-- The per-cycle environment of `monitor_loop`: that cycle's `settings`
read outcome and the hardware behaviour of each unit during the cycle. -/
structure CycleEnv where
  settingsRows : Except String (List (String × String))
  sensors : Nat → SensorBehavior
  fanOn : Nat → Bool

/-- One iteration of the `while True` body of `monitor_loop` (reload
cadence aside): fetch the settings fresh, then run the sampling pass with
the limits just fetched. -/
def monitor_cycle (pyFloat : String → Option ℚ) (c : CycleEnv)
    (unitIds : List Nat) : List LogRow × List (Nat × ℚ) :=
  let s := get_settings pyFloat c.settingsRows
  monitor_pass c.sensors c.fanOn s.1 s.2 unitIds

/-- A finite prefix of `monitor_loop`'s run: each cycle uses its own fresh
settings read. -/
def monitor_run (pyFloat : String → Option ℚ) (cycles : List CycleEnv)
    (unitIds : List Nat) : List (List LogRow × List (Nat × ℚ)) :=
  cycles.map (fun c => monitor_cycle pyFloat c unitIds)

/-- One delivery attempt of `send_email_alert`: the recipient and whether
`mail.send` succeeded for it. -/
structure SendAttempt where
  recipient : String
  delivered : Bool
deriving DecidableEq, Repr

/-- `send_email_alert(unit_id, temperature)`: fetch the recipient list
(outside any `try`, so a store failure propagates), return if empty,
otherwise attempt one send per recipient, catching each send failure. -/
def send_email_alert (fetchRecipients : Except String (List String))
    (sendMail : String → Except String Unit) (_unitId : Nat)
    (_temperature : ℚ) : Except String (List SendAttempt) :=
  match fetchRecipients with
  | .error e => .error e
  | .ok recipients =>
    if recipients.isEmpty then .ok []
    else .ok (recipients.map (fun r => ⟨r, (sendMail r).isOk⟩))

/-- The durable store's `units` table plus its AUTOINCREMENT counter. -/
structure Db where
  units : List UnitRow
  nextId : Nat
deriving DecidableEq, Repr

/-- The JSON body returned by `/units/add`. -/
structure ApiResult where
  success : Bool
  error : Option String
deriving DecidableEq, Repr

/-- Truthiness of `request.form.get(...)`: `None` and the empty string are
falsy. -/
def pyTruthy : Option String → Bool
  | none => false
  | some s => s != ""

/-- `INSERT INTO units (name, dht_pin, fan_pin, active) VALUES (?, ?, ?, 1)`:
the UNIQUE constraint on `name` raises `IntegrityError` on a duplicate,
regardless of the existing row's `active` flag. -/
def insertUnitRow (db : Db) (name dht : String) (fanPin : Int) : Except String Db :=
  if db.units.any (fun r => r.name == name) then
    .error "UNIQUE constraint failed: units.name"
  else
    .ok ⟨db.units ++ [⟨db.nextId, name, dht, fanPin, true⟩], db.nextId + 1⟩

/-- `/units/add`: validate field presence, parse `fan_pin` with `int`
(modelled by the environment function `pyInt`), insert the row (committing
it), and only then check `hasattr(board, dht_pin)`; on success reload the
registry via `load_units`. Returns the response and the resulting durable
store and in-memory registry. -/
def add_unit (env : HwEnv) (pyInt : String → Option Int) (db : Db) (reg : Registry)
    (nameField dhtField fanField : Option String) : ApiResult × Db × Registry :=
  if !(pyTruthy nameField && pyTruthy dhtField && pyTruthy fanField) then
    (⟨false, some "Missing fields"⟩, db, reg)
  else
    match pyInt (fanField.getD "") with
    | none => (⟨false, some "Invalid fan_pin"⟩, db, reg)
    | some fanPin =>
      match insertUnitRow db (nameField.getD "") (dhtField.getD "") fanPin with
      | .error _ => (⟨false, some "Unit name exists"⟩, db, reg)
      | .ok db2 =>
        if (env.boardPin (dhtField.getD "")).isNone then
          (⟨false, some "Invalid DHT pin"⟩, db2, reg)
        else
          (⟨true, none⟩, db2, load_units env db2.units reg)

/-- One per-unit entry of the `/events` (and `/data`) snapshot. -/
structure SnapEntry where
  name : String
  temperature : Option ℚ
  humidity : Option ℚ
  fanStatus : String
deriving DecidableEq, Repr

/-- The snapshot built under `units_lock` during one tick of `sse_stream`:
for each registered unit, one `read_sensor` call and the fan status. -/
def buildSnapshot (reg : Registry) (sensors : Nat → SensorBehavior)
    (fans : Nat → Bool) : List (Nat × SnapEntry) :=
  reg.map (fun p =>
    (p.1, ⟨p.2.name, (read_sensor (sensors p.1)).1, (read_sensor (sensors p.1)).2,
           if fans p.1 then "ON" else "OFF"⟩))

/-- One tick of `event_stream` in `sse_stream`: the `try` body builds and
emits the snapshot; any raise is caught and an empty snapshot is emitted
for the tick instead. -/
def sse_tick (t : Except String (List (Nat × SnapEntry))) : List (Nat × SnapEntry) :=
  match t with
  | .ok snapshot => snapshot
  | .error _ => []

/-- The sequence of snapshots `event_stream` emits over a run of ticks:
one emission per tick, error ticks included. -/
def event_stream (ticks : List (Except String (List (Nat × SnapEntry)))) :
    List (List (Nat × SnapEntry)) :=
  ticks.map sse_tick

/-- Concrete sensor behaviour used to instantiate theorems: the
temperature property read always raises (a DHT timing fault). -/
def sensorsNone : Nat → SensorBehavior := fun _ => ⟨.error "DHT timeout", .ok none⟩

/-- Concrete transport behaviour used to instantiate theorems: delivery to
the first recipient fails, every other delivery succeeds. -/
def sendFirstFails : String → Except String Unit :=
  fun r => if r == "a@x" then .error "SMTP connection refused" else .ok ()

/-- Concrete hardware environment used to instantiate theorems: the board
exposes only pin `D4`, sensor and fan construction always succeed. -/
def env0 : HwEnv :=
  ⟨fun s => if s == "D4" then some 4 else none, fun p => .ok p, fun _ => .ok 0⟩

/-- Concrete empty durable store used to instantiate theorems. -/
def db0 : Db := ⟨[], 1⟩

/-- Concrete durable store holding one soft-deleted row, used to
instantiate theorems. -/
def db1 : Db := ⟨[⟨1, "lab-a", "D4", 17, false⟩], 2⟩

/-- Concrete `int` behaviour used to instantiate theorems: parses only the
literal `17`. -/
def pyInt0 : String → Option Int := fun s => if s == "17" then some 17 else none

/-- Concrete `float` behaviour used to instantiate theorems: parses
integer literals only. -/
def pf0 : String → Option ℚ := fun s => (s.toInt?).map (fun n => (n : ℚ))

theorem mem_keys_dictInsert (m : Registry) (k : Nat) (v : RuntimeUnit) (j : Nat) :
    j ∈ registryKeys (dictInsert m k v) ↔ j ∈ registryKeys m ∨ j = k := by
  simp only [registryKeys, dictInsert, List.map_append, List.mem_append,
    List.mem_map, List.mem_filter, List.map_cons, List.map_nil,
    List.mem_singleton, bne_iff_ne, ne_eq]
  constructor
  · rintro (⟨p, ⟨hp, _⟩, rfl⟩ | rfl)
    · exact Or.inl ⟨p, hp, rfl⟩
    · exact Or.inr rfl
  · rintro (⟨p, hp, rfl⟩ | rfl)
    · by_cases hk : p.1 = k
      · exact Or.inr hk
      · exact Or.inl ⟨p, ⟨hp, hk⟩, rfl⟩
    · exact Or.inr rfl

theorem mem_keys_processRow (env : HwEnv) (acc : Registry) (row : UnitRow) (j : Nat) :
    j ∈ registryKeys (processRow env acc row) ↔
      j ∈ registryKeys acc ∨ (unitLoadOk env row = true ∧ row.id = j) := by
  unfold processRow unitLoadOk
  cases hb : get_board_pin env row.dhtPin with
  | none => simp
  | some p =>
    cases hd : env.dhtInit p with
    | error e => simp [hd]
    | ok s =>
      cases hf : env.fanInit row.fanPin with
      | error e => simp [hd, hf]
      | ok f =>
        simp only [hd, hf, mem_keys_dictInsert, true_and]
        constructor
        · rintro (h | rfl)
          · exact Or.inl h
          · exact Or.inr rfl
        · rintro (h | rfl)
          · exact Or.inl h
          · exact Or.inr rfl

theorem mem_keys_foldl_processRow (env : HwEnv) :
    ∀ (rows : List UnitRow) (acc : Registry) (j : Nat),
      j ∈ registryKeys (rows.foldl (processRow env) acc) ↔
        j ∈ registryKeys acc ∨
          ∃ row, row ∈ rows ∧ unitLoadOk env row = true ∧ row.id = j := by
  intro rows
  induction rows with
  | nil => intro acc j; simp
  | cons r rest ih =>
    intro acc j
    rw [List.foldl_cons, ih, mem_keys_processRow]
    simp only [List.mem_cons]
    constructor
    · rintro ((h | ⟨hok, hid⟩) | ⟨row, hrow, hok, hid⟩)
      · exact Or.inl h
      · exact Or.inr ⟨r, Or.inl rfl, hok, hid⟩
      · exact Or.inr ⟨row, Or.inr hrow, hok, hid⟩
    · rintro (h | ⟨row, (rfl | hrow), hok, hid⟩)
      · exact Or.inl (Or.inl h)
      · exact Or.inl (Or.inr ⟨hok, hid⟩)
      · exact Or.inr ⟨row, hrow, hok, hid⟩

/-- Claim C1: after `load_units`, the registry's key set is exactly the ids
of the `active=true` rows for which pin resolution and sensor/fan
construction all succeeded, and the result does not depend on the prior
registry contents. -/
theorem load_units_exact_ids (env : HwEnv) (db : List UnitRow)
    (old old2 : Registry) (j : Nat) :
    (j ∈ registryKeys (load_units env db old) ↔
      ∃ row, row ∈ db ∧ row.active = true ∧ unitLoadOk env row = true ∧ row.id = j)
    ∧ load_units env db old = load_units env db old2 := by
  refine ⟨?_, rfl⟩
  rw [load_units, buildNewUnits, mem_keys_foldl_processRow]
  simp only [registryKeys, List.map_nil, List.not_mem_nil, false_or, List.mem_filter]
  constructor
  · rintro ⟨row, ⟨hmem, hact⟩, hok, hid⟩
    exact ⟨row, hmem, hact, hok, hid⟩
  · rintro ⟨row, hmem, hact, hok, hid⟩
    exact ⟨row, ⟨hmem, hact⟩, hok, hid⟩

theorem execTrace_shared_mem (env : HwEnv) :
    ∀ (rows : List UnitRow) (s : LoadState) (t : LoadState),
      t ∈ execTrace env s (rows.map LoadStep.procRow ++ [LoadStep.publish]) →
      t.shared = s.shared ∨ t.shared = rows.foldl (processRow env) s.building := by
  intro rows
  induction rows with
  | nil =>
    intro s t ht
    simp only [List.map_nil, List.nil_append, execTrace, List.mem_cons,
      List.not_mem_nil, or_false] at ht
    rcases ht with rfl | rfl
    · exact Or.inl rfl
    · exact Or.inr (by simp [loadStepRun])
  | cons r rest ih =>
    intro s t ht
    simp only [List.map_cons, List.cons_append, execTrace, List.mem_cons] at ht
    rcases ht with rfl | ht
    · exact Or.inl rfl
    · rcases ih (loadStepRun env s (.procRow r)) t ht with h | h
      · exact Or.inl h
      · exact Or.inr (by simpa [loadStepRun] using h)

theorem execTrace_getLast (env : HwEnv) :
    ∀ (steps : List LoadStep) (s : LoadState),
      (execTrace env s steps).getLast? = some (steps.foldl (loadStepRun env) s) := by
  intro steps
  induction steps with
  | nil => intro s; simp [execTrace]
  | cons step rest ih =>
    intro s
    simp [execTrace, List.getLast?_cons, ih]

theorem foldl_procRow_steps (env : HwEnv) :
    ∀ (rows : List UnitRow) (s : LoadState),
      (rows.map LoadStep.procRow).foldl (loadStepRun env) s =
        ⟨s.shared, rows.foldl (processRow env) s.building⟩ := by
  intro rows
  induction rows with
  | nil => intro s; rfl
  | cons r rest ih => intro s; simp [loadStepRun, ih]

/-- Claim C2: every state in the trace of `load_units` shows the shared map
equal either to the whole old map or to the whole new map (never a
mixture), and the final state's shared map is the fully constructed new
map: the lone shared-map mutation is the whole-map publish. -/
theorem load_units_atomic_replace (env : HwEnv) (db : List UnitRow) (old : Registry) :
    (∀ t ∈ loadUnitsTrace env db old,
        t.shared = old ∨ t.shared = load_units env db old)
    ∧ (loadUnitsTrace env db old).getLast? =
        some ⟨load_units env db old, load_units env db old⟩ := by
  constructor
  · intro t ht
    have := execTrace_shared_mem env (db.filter (fun r => r.active)) ⟨old, []⟩ t
      (by simpa [loadUnitsTrace, loadUnitsSteps] using ht)
    simpa [load_units, buildNewUnits] using this
  · rw [loadUnitsTrace, execTrace_getLast, loadUnitsSteps, List.foldl_append,
      foldl_procRow_steps]
    simp [loadStepRun, load_units, buildNewUnits]

/-- Witness for C2 at a concrete trace state. -/
theorem load_units_atomic_replace_witness :
    ((⟨[], []⟩ : LoadState).shared = ([(5, ⟨"old", 1, 2⟩)] : Registry)
      ∨ (⟨[], []⟩ : LoadState).shared = load_units env0 [] [(5, ⟨"old", 1, 2⟩)]) :=
  (load_units_atomic_replace env0 [] [(5, ⟨"old", 1, 2⟩)]).1 ⟨[], []⟩ (by decide)

theorem roundHalfEven_intCast (n : ℤ) : roundHalfEven ((n : ℤ) : ℚ) = n := by
  unfold roundHalfEven
  rw [Rat.num_intCast, Rat.den_intCast]
  norm_num [Int.fdiv_one]

theorem round2_intCast (n : ℤ) : round2 ((n : ℤ) : ℚ) = (n : ℚ) := by
  unfold round2
  rw [show ((n : ℤ) : ℚ) * 100 = ((n * 100 : ℤ) : ℚ) by push_cast; ring,
    roundHalfEven_intCast]
  push_cast
  field_simp

theorem monitor_unit_step_no_temp (b : SensorBehavior) (fanOn : Bool)
    (minTemp maxTemp : ℚ) (unitId : Nat) (h : (read_sensor b).1 = none) :
    monitor_unit_step b fanOn minTemp maxTemp unitId = ([], []) := by
  simp [monitor_unit_step, h]

theorem monitor_unit_step_owner (b : SensorBehavior) (fanOn : Bool)
    (minTemp maxTemp : ℚ) (unitId : Nat) :
    (∀ row ∈ (monitor_unit_step b fanOn minTemp maxTemp unitId).1,
        row.unitId = unitId)
    ∧ ∀ a ∈ (monitor_unit_step b fanOn minTemp maxTemp unitId).2, a.1 = unitId := by
  cases h : (read_sensor b).1 with
  | none => simp [monitor_unit_step, h]
  | some t =>
    simp only [monitor_unit_step, h]
    constructor
    · intro row hrow
      simp only [List.mem_singleton] at hrow
      subst hrow
      rfl
    · intro a ha
      split at ha
      · simp only [List.mem_singleton] at ha
        subst ha
        rfl
      · simp at ha

/-- Claim C3: for any unit whose sensor read yields no temperature value,
a monitoring pass persists no log row for that unit and makes no alert
dispatch for that unit. -/
theorem sensor_no_value_no_log_no_alert (sensors : Nat → SensorBehavior)
    (fans : Nat → Bool) (minTemp maxTemp : ℚ) (unitIds : List Nat) (uid : Nat)
    (h : (read_sensor (sensors uid)).1 = none) :
    (∀ row ∈ (monitor_pass sensors fans minTemp maxTemp unitIds).1,
        row.unitId ≠ uid)
    ∧ ∀ a ∈ (monitor_pass sensors fans minTemp maxTemp unitIds).2, a.1 ≠ uid := by
  induction unitIds with
  | nil => simp [monitor_pass]
  | cons u rest ih =>
    simp only [monitor_pass]
    constructor
    · intro row hrow
      simp only [List.mem_append] at hrow
      rcases hrow with hrow | hrow
      · by_cases hu : u = uid
        · subst hu
          rw [monitor_unit_step_no_temp _ _ _ _ _ h] at hrow
          simp at hrow
        · have := (monitor_unit_step_owner (sensors u) (fans u) minTemp maxTemp u).1
            row hrow
          rw [this]
          exact hu
      · exact ih.1 row hrow
    · intro a ha
      simp only [List.mem_append] at ha
      rcases ha with ha | ha
      · by_cases hu : u = uid
        · subst hu
          rw [monitor_unit_step_no_temp _ _ _ _ _ h] at ha
          simp at ha
        · have := (monitor_unit_step_owner (sensors u) (fans u) minTemp maxTemp u).2
            a ha
          rw [this]
          exact hu
      · exact ih.2 a ha

/-- Witness for C3 at a concrete failing sensor. -/
theorem sensor_no_value_no_log_no_alert_witness :
    (∀ row ∈ (monitor_pass sensorsNone (fun _ => false) 10 40 [1, 2]).1,
        row.unitId ≠ 1)
    ∧ ∀ a ∈ (monitor_pass sensorsNone (fun _ => false) 10 40 [1, 2]).2, a.1 ≠ 1 :=
  sensor_no_value_no_log_no_alert sensorsNone (fun _ => false) 10 40 [1, 2] 1 rfl

/-- Claim C4: an out-of-range sampled temperature produces exactly one
dispatch, and that dispatch attempts delivery exactly once per recipient
currently in the store — one recipient's failure never prevents the
remaining attempts — and is a no-op on an empty recipient set. -/
theorem out_of_range_alert_per_recipient (send : String → Except String Unit)
    (b : SensorBehavior) (fanOn : Bool) (minTemp maxTemp t : ℚ) (uid : Nat)
    (recipients : List String)
    (ht : (read_sensor b).1 = some t) (hout : t < minTemp ∨ maxTemp < t) :
    (monitor_unit_step b fanOn minTemp maxTemp uid).2 = [(uid, t)]
    ∧ send_email_alert (.ok recipients) send uid t =
        .ok (recipients.map (fun r => ⟨r, (send r).isOk⟩))
    ∧ (recipients = [] → send_email_alert (.ok recipients) send uid t = .ok []) := by
  refine ⟨?_, ?_, ?_⟩
  · simp only [monitor_unit_step, ht]
    rw [if_pos hout]
  · cases recipients <;> simp [send_email_alert]
  · rintro rfl
    simp [send_email_alert]

/-- Witness for C4: temperature 45 with limits [10, 40], two recipients,
the first of which fails. -/
theorem out_of_range_alert_per_recipient_witness :
    (monitor_unit_step ⟨.ok (some 45), .ok (some 60)⟩ true 10 40 1).2 = [(1, 45)]
    ∧ send_email_alert (.ok ["a@x", "b@x"]) sendFirstFails 1 45 =
        .ok (["a@x", "b@x"].map (fun r => ⟨r, (sendFirstFails r).isOk⟩))
    ∧ (["a@x", "b@x"] = [] →
        send_email_alert (.ok ["a@x", "b@x"]) sendFirstFails 1 45 = .ok []) :=
  out_of_range_alert_per_recipient sendFirstFails ⟨.ok (some 45), .ok (some 60)⟩
    true 10 40 45 1 ["a@x", "b@x"]
    (by
      have h45 : round2 (45 : ℚ) = 45 := by
        rw [show (45 : ℚ) = ((45 : ℤ) : ℚ) by norm_num, round2_intCast]
      simp [read_sensor, h45])
    (Or.inr (by norm_num))

/-- Counterexample to C5 as stated: a recipient-store read failure is not
caught inside `send_email_alert` and propagates to the caller. -/
theorem send_email_alert_raises_on_store_failure :
    send_email_alert (.error "database is locked") (fun _ => .ok ()) 1 50 =
      .error "database is locked" := rfl

/-- Claim C5 (amended): when the recipient-store read succeeds,
`send_email_alert` never raises — every per-recipient transport failure is
caught inside the loop. -/
theorem send_email_alert_no_raise_when_store_ok (send : String → Except String Unit)
    (unitId : Nat) (temperature : ℚ) (recipients : List String) :
    (send_email_alert (.ok recipients) send unitId temperature).isOk = true := by
  cases recipients <;> simp [send_email_alert, Except.isOk, Except.toBool]

/-- Counterexample to C6 as stated: adding a unit with an unresolvable
sensor pin is rejected, but the durable unit store is changed — the row
was inserted and committed before the pin check. -/
theorem add_unit_bad_pin_mutates_store :
    (add_unit env0 pyInt0 db0 [] (some "unit-a") (some "D99") (some "17")).1.success
        = false
    ∧ (add_unit env0 pyInt0 db0 [] (some "unit-a") (some "D99") (some "17")).2.1
        ≠ db0 := by
  decide

/-- Claim C6 (amended): adding a unit with an unresolvable sensor pin
returns a failure to the caller, but only after the definition has been
inserted (active) into the durable unit store; the registry is untouched,
and every later reconciliation re-examines the row and skips it at pin
resolution. -/
theorem add_unit_bad_pin_inserts_then_rejects (env : HwEnv)
    (pyInt : String → Option Int) (db : Db) (reg : Registry)
    (name dht fan : String) (fanPin : Int)
    (hname : name ≠ "") (hdht : dht ≠ "") (hfan : fan ≠ "")
    (hparse : pyInt fan = some fanPin)
    (hdup : db.units.any (fun r => r.name == name) = false)
    (hpin : env.boardPin dht = none) :
    (add_unit env pyInt db reg (some name) (some dht) (some fan)).1 =
        ⟨false, some "Invalid DHT pin"⟩
    ∧ (add_unit env pyInt db reg (some name) (some dht) (some fan)).2.1.units =
        db.units ++ [⟨db.nextId, name, dht, fanPin, true⟩]
    ∧ (add_unit env pyInt db reg (some name) (some dht) (some fan)).2.2 = reg
    ∧ unitLoadOk env ⟨db.nextId, name, dht, fanPin, true⟩ = false := by
  have hcond :
      (pyTruthy (some name) && pyTruthy (some dht) && pyTruthy (some fan)) = true := by
    simp [pyTruthy, hname, hdht, hfan]
  refine ⟨?_, ?_, ?_, ?_⟩ <;>
    simp [add_unit, hcond, hparse, insertUnitRow, hdup, hpin, unitLoadOk,
      get_board_pin]

/-- Witness for the amended C6 at a concrete store and environment. -/
theorem add_unit_bad_pin_inserts_then_rejects_witness :
    (add_unit env0 pyInt0 db0 [] (some "unit-a") (some "D99") (some "17")).1 =
        ⟨false, some "Invalid DHT pin"⟩
    ∧ (add_unit env0 pyInt0 db0 [] (some "unit-a") (some "D99") (some "17")).2.1.units =
        db0.units ++ [⟨db0.nextId, "unit-a", "D99", 17, true⟩]
    ∧ (add_unit env0 pyInt0 db0 [] (some "unit-a") (some "D99") (some "17")).2.2 = []
    ∧ unitLoadOk env0 ⟨db0.nextId, "unit-a", "D99", 17, true⟩ = false :=
  add_unit_bad_pin_inserts_then_rejects env0 pyInt0 db0 [] "unit-a" "D99" "17" 17
    (by decide) (by decide) (by decide) (by decide) (by decide) (by decide)

/-- Claim C7: adding a unit whose name equals an existing row's name
(whatever that row's `active` flag) is rejected and leaves the in-memory
registry exactly as it was. -/
theorem add_unit_duplicate_name_rejected (env : HwEnv)
    (pyInt : String → Option Int) (db : Db) (reg : Registry)
    (nameField dhtField fanField : Option String)
    (hdup : ∃ r, r ∈ db.units ∧ nameField = some r.name) :
    (add_unit env pyInt db reg nameField dhtField fanField).1.success = false
    ∧ (add_unit env pyInt db reg nameField dhtField fanField).2.2 = reg := by
  obtain ⟨r, hr, hname⟩ := hdup
  subst hname
  have hany : db.units.any (fun x => x.name == r.name) = true :=
    List.any_eq_true.mpr ⟨r, hr, by simp⟩
  by_cases hc : (pyTruthy (some r.name) && pyTruthy dhtField && pyTruthy fanField) = true
  · cases hp : pyInt (fanField.getD "") with
    | none => simp [add_unit, hc, hp]
    | some fanPin => simp [add_unit, hc, hp, insertUnitRow, hany]
  · rw [Bool.not_eq_true] at hc
    simp [add_unit, hc]

/-- Witness for C7: duplicate of a soft-deleted (`active=false`) row. -/
theorem add_unit_duplicate_name_rejected_witness :
    (add_unit env0 pyInt0 db1 [(9, ⟨"x", 1, 2⟩)]
        (some "lab-a") (some "D4") (some "17")).1.success = false
    ∧ (add_unit env0 pyInt0 db1 [(9, ⟨"x", 1, 2⟩)]
        (some "lab-a") (some "D4") (some "17")).2.2 = [(9, ⟨"x", 1, 2⟩)] :=
  add_unit_duplicate_name_rejected env0 pyInt0 db1 [(9, ⟨"x", 1, 2⟩)]
    (some "lab-a") (some "D4") (some "17")
    ⟨⟨1, "lab-a", "D4", 17, false⟩, by decide, rfl⟩

theorem foldl_dictLookup_acc (k : String) :
    ∀ (rows : List (String × String)) (acc : Option String),
      (∀ kv ∈ rows, kv.1 ≠ k) →
      rows.foldl (fun acc kv => if kv.1 == k then some kv.2 else acc) acc = acc := by
  intro rows
  induction rows with
  | nil => intro acc _; rfl
  | cons kv rest ih =>
    intro acc h
    have hne : kv.1 ≠ k := h kv (by simp)
    rw [List.foldl_cons, if_neg (by simpa using hne)]
    exact ih acc (fun x hx => h x (by simp [hx]))

theorem dictLookup_eq_none (rows : List (String × String)) (k : String)
    (h : ∀ kv ∈ rows, kv.1 ≠ k) : dictLookup rows k = none :=
  foldl_dictLookup_acc k rows none h

/-- Claim C8: `get_settings` returns the defaults `(10, 40)` when the
settings read fails and when the two keys are absent, and the monitor run
evaluates `get_settings` on each cycle's own fresh store read (no caching
across cycles). -/
theorem get_settings_defaults (pyFloat : String → Option ℚ) (e : String)
    (rows : List (String × String)) (cycles : List CycleEnv) (unitIds : List Nat)
    (k : Nat)
    (habsent : ∀ kv ∈ rows, kv.1 ≠ "temp_spec_min" ∧ kv.1 ≠ "temp_spec_max") :
    get_settings pyFloat (.error e) = (10, 40)
    ∧ get_settings pyFloat (.ok rows) = (10, 40)
    ∧ (monitor_run pyFloat cycles unitIds)[k]? =
        (cycles[k]?).map (fun c => monitor_cycle pyFloat c unitIds) := by
  refine ⟨rfl, ?_, ?_⟩
  · simp [get_settings,
      dictLookup_eq_none rows "temp_spec_min" (fun kv hkv => (habsent kv hkv).1),
      dictLookup_eq_none rows "temp_spec_max" (fun kv hkv => (habsent kv hkv).2)]
  · simp [monitor_run, List.getElem?_map]

/-- Witness for C8 at a concrete failing read and key-free row set. -/
theorem get_settings_defaults_witness :
    get_settings pf0 (.error "db locked") = (10, 40)
    ∧ get_settings pf0 (.ok [("other_key", "1")]) = (10, 40)
    ∧ (monitor_run pf0 [] [])[0]? =
        (([] : List CycleEnv)[0]?).map (fun c => monitor_cycle pf0 c []) :=
  get_settings_defaults pf0 "db locked" [("other_key", "1")] [] [] 0 (by decide)

/-- Claim C9: each tick of the live feed emits exactly one snapshot; a tick
whose snapshot build raises emits the empty snapshot, and the stream keeps
producing the subsequent ticks. -/
theorem event_stream_error_resilient
    (ticks : List (Except String (List (Nat × SnapEntry)))) :
    (event_stream ticks).length = ticks.length
    ∧ (∀ (k : Nat) (e : String),
        ticks[k]? = some (Except.error e) → (event_stream ticks)[k]? = some [])
    ∧ (∀ (k : Nat) (s : List (Nat × SnapEntry)),
        ticks[k]? = some (Except.ok s) → (event_stream ticks)[k]? = some s) := by
  refine ⟨by simp [event_stream], ?_, ?_⟩
  · intro k e h
    simp [event_stream, List.getElem?_map, h, sse_tick]
  · intro k s h
    simp [event_stream, List.getElem?_map, h, sse_tick]

/-- Concrete one-unit registry used to instantiate theorems. -/
def regSample : Registry := [(1, ⟨"incubator", 4, 0⟩)]

/-- Concrete tick sequence used to instantiate theorems: a failing tick
followed by a successful one. -/
def ticks0 : List (Except String (List (Nat × SnapEntry))) :=
  [.error "boom", .ok (buildSnapshot regSample sensorsNone (fun _ => false))]

/-- Witness for C9: the error tick emits the empty snapshot and the next
tick is still produced. -/
theorem event_stream_error_resilient_witness :
    (event_stream ticks0).length = ticks0.length
    ∧ (event_stream ticks0)[0]? = some []
    ∧ (event_stream ticks0)[1]? =
        some (buildSnapshot regSample sensorsNone (fun _ => false)) :=
  ⟨(event_stream_error_resilient ticks0).1,
   (event_stream_error_resilient ticks0).2.1 0 "boom" rfl,
   (event_stream_error_resilient ticks0).2.2 1
     (buildSnapshot regSample sensorsNone (fun _ => false)) rfl⟩

/-- Claim C10: a present sensor value is returned rounded to 2 decimal
places (a multiple of 1/100); the two returned components are
independently optional; and a cycle persists a log row with a present
temperature and an absent humidity when the humidity read yields `None`. -/
theorem read_sensor_rounds_independently (t h : Option ℚ) (fanOn : Bool) :
    read_sensor ⟨.ok t, .ok h⟩ = (t.map round2, h.map round2)
    ∧ (∀ x : ℚ, (round2 x * 100).den = 1)
    ∧ monitor_unit_step ⟨.ok (some 25), .ok none⟩ fanOn 10 40 7 =
        ([⟨7, 25, none, fanOn⟩], []) := by
  refine ⟨rfl, ?_, ?_⟩
  · intro x
    rw [round2, div_mul_cancel₀ _ (by norm_num : (100 : ℚ) ≠ 0)]
    exact Rat.den_intCast _
  · have h25 : round2 (25 : ℚ) = 25 := by
      rw [show (25 : ℚ) = ((25 : ℤ) : ℚ) by norm_num, round2_intCast]
    have hc : ¬((25 : ℚ) < 10 ∨ (40 : ℚ) < 25) := by norm_num
    simp [monitor_unit_step, read_sensor, h25, hc]

end TempHum
